import Mathlib

/-!
Shallow embedding of the shop-management core (src/app.py): the relational
state (shops, users, items, sales), the inventory repository
(fetch_items, fetch_item, create_item, update_item, delete_item), the
sale transaction engine (the POST branch of sell_item), the bootstrap
(init_db) and the shop-creation POST (shops).  SQLite tables are modelled
as lists of rows in insertion (rowid) order; AUTOINCREMENT columns are
modelled by explicit next-id counters; REAL columns by Rat; INTEGER
columns parsed from forms by Int (Python ints are unbounded); TEXT by
String.  Wall-clock columns (sales.created_at) are outside the embedding
and omitted.
-/

namespace ShopApp

/-- The users.role column is CHECK-constrained to admin or worker. -/
inductive Role where
  | admin
  | worker
deriving Repr, DecidableEq

/-- A row of the shops table: (id INTEGER PK AUTOINCREMENT, name TEXT UNIQUE). -/
structure Shop where
  id : Nat
  name : String
deriving Repr, DecidableEq

/-- A row of the users table. -/
structure User where
  id : Nat
  username : String
  password : String
  role : Role
deriving Repr, DecidableEq

/-- A row of the items table: id, shop_id (FK), name, price REAL, quantity INTEGER. -/
structure Item where
  id : Nat
  shop_id : Nat
  name : String
  price : Rat
  quantity : Int
deriving Repr, DecidableEq

/-- A row of the sales table (created_at omitted: wall-clock time). -/
structure Sale where
  id : Nat
  shop_id : Nat
  item_id : Nat
  user_id : Nat
  quantity : Int
  total : Rat
deriving Repr, DecidableEq

/-- The persistent store: the four tables in rowid order plus the
AUTOINCREMENT counters. -/
structure DB where
  shops : List Shop
  users : List User
  items : List Item
  sales : List Sale
  nextShopId : Nat
  nextUserId : Nat
  nextItemId : Nat
  nextSaleId : Nat
deriving Repr, DecidableEq

/-- A store with empty tables, as sqlite creates it before any insert. -/
def DB.empty : DB :=
  { shops := [], users := [], items := [], sales := [],
    nextShopId := 1, nextUserId := 1, nextItemId := 1, nextSaleId := 1 }

/-- fetch_items (app.py): SELECT items WHERE shop_id = ? ORDER BY id DESC;
a missing selected shop yields the empty list. -/
def fetch_items (db : DB) (shop_id : Option Nat) : List Item :=
  match shop_id with
  | none => []
  | some s =>
      List.insertionSort (fun a b => b.id ≤ a.id)
        (db.items.filter (fun it => it.shop_id == s))

/-- fetch_item (app.py): SELECT ... WHERE id = ? (and AND shop_id = ? when a
shop is supplied); fetchone returns the first matching row. -/
def fetch_item (db : DB) (item_id : Nat) (shop_id : Option Nat) : Option Item :=
  match shop_id with
  | none => db.items.find? (fun it => it.id == item_id)
  | some s => db.items.find? (fun it => it.id == item_id && it.shop_id == s)

/-- create_item (app.py): INSERT INTO items (shop_id, name, price, quantity). -/
def create_item (db : DB) (shop_id : Nat) (name : String) (price : Rat)
    (quantity : Int) : DB :=
  { db with
    items := db.items ++ [⟨db.nextItemId, shop_id, name, price, quantity⟩],
    nextItemId := db.nextItemId + 1 }

/-- update_item (app.py): UPDATE items SET name, price, quantity WHERE id = ?;
shop_id and id are not touched. -/
def update_item (db : DB) (item_id : Nat) (name : String) (price : Rat)
    (quantity : Int) : DB :=
  { db with
    items := db.items.map (fun it =>
      if it.id = item_id then
        { it with name := name, price := price, quantity := quantity }
      else it) }

/-- delete_item (app.py): DELETE FROM items WHERE id = ?. -/
def delete_item (db : DB) (item_id : Nat) : DB :=
  { db with items := db.items.filter (fun it => it.id ≠ item_id) }

/-- The outcome handed back by the sell route: the sell_ok flag and the
sell_status message. -/
structure SellResult where
  ok : Bool
  message : String
deriving Repr, DecidableEq

/-- The POST branch of the sell_item route (app.py lines 303-356), after the
form integers parsed: resolve the item scoped to the session shop, then
check quantity ≤ 0, then quantity > stock, else decrement stock via
update_item and INSERT one sales row with total = item.price * quantity. -/
def sell_item (db : DB) (shop_id : Nat) (user_id : Nat) (item_id : Nat)
    (quantity : Int) : DB × SellResult :=
  match fetch_item db item_id (some shop_id) with
  | none => (db, ⟨false, "Selected item not found."⟩)
  | some item =>
      if quantity ≤ 0 then
        (db, ⟨false, "Quantity must be at least 1."⟩)
      else if quantity > item.quantity then
        (db, ⟨false, "Not enough stock to complete the sale."⟩)
      else
        let db1 := update_item db item.id item.name item.price
          (item.quantity - quantity)
        let db2 := { db1 with
          sales := db1.sales ++
            [⟨db1.nextSaleId, shop_id, item.id, user_id, quantity,
              item.price * (quantity : Rat)⟩],
          nextSaleId := db1.nextSaleId + 1 }
        (db2, ⟨true, "Sale recorded successfully."⟩)

/-- init_db (app.py): CREATE TABLE IF NOT EXISTS is a no-op on the row
content; if no shop row exists insert ("Default Shop"); if no admin user
exists insert ("admin", "admin123", admin).  The guarded ALTER TABLE is a
schema migration with no effect on the modelled row content. -/
def init_db (db : DB) : DB :=
  let db1 :=
    if db.shops.isEmpty then
      { db with
        shops := db.shops ++ [⟨db.nextShopId, "Default Shop"⟩],
        nextShopId := db.nextShopId + 1 }
    else db
  if db1.users.any (fun u => u.role == Role.admin) then db1
  else
    { db1 with
      users := db1.users ++ [⟨db1.nextUserId, "admin", "admin123", Role.admin⟩],
      nextUserId := db1.nextUserId + 1 }

/-- Python str.strip() applied to a form value, modelled on the character
list: leading and trailing whitespace removed. -/
def strip (s : String) : String :=
  ⟨((s.data.dropWhile Char.isWhitespace).reverse.dropWhile Char.isWhitespace).reverse⟩

/-- The POST branch of the shops route (app.py lines 399-404): strip the
submitted name; when non-empty, INSERT OR IGNORE into shops, whose UNIQUE
(name) constraint makes a duplicate insert a silent no-op. -/
def shops_post (db : DB) (rawName : String) : DB :=
  let name := strip rawName
  if name ≠ "" then
    if db.shops.any (fun s => s.name == name) then db
    else
      { db with
        shops := db.shops ++ [⟨db.nextShopId, name⟩],
        nextShopId := db.nextShopId + 1 }
  else db

/-- The POST branch of the edit_item route (app.py lines 258-273): the item
is looked up WITHOUT shop scoping (fetch_item(item_id)); when found, the
update is applied by raw id.  The session shop id is read but never used to
restrict the lookup or the update. -/
def edit_item_post (db : DB) (session_shop_id : Option Nat) (item_id : Nat)
    (name : String) (price : Rat) (quantity : Int) : DB :=
  match fetch_item db item_id none with
  | none => db
  | some _ =>
      let _ := session_shop_id
      update_item db item_id name price quantity

/-- The remove_item route (app.py lines 276-282): deletes by raw id with no
shop scoping at all. -/
def remove_item (db : DB) (item_id : Nat) : DB :=
  delete_item db item_id

/-- One sell request, for sequencing sale operations. -/
structure SellRequest where
  shop_id : Nat
  user_id : Nat
  item_id : Nat
  quantity : Int
deriving Repr, DecidableEq

/-- Apply a finite sequence of sale operations, threading the store. -/
def runSales (db : DB) (reqs : List SellRequest) : DB :=
  reqs.foldl (fun d r => (sell_item d r.shop_id r.user_id r.item_id r.quantity).1) db

end ShopApp

namespace ShopApp

/-- For a list zipped with its own image under a map, every pair is
(x, f x). -/
theorem zip_map_self {α β : Type} (f : α → β) (l : List α) :
    ∀ pr ∈ l.zip (l.map f), pr.2 = f pr.1 := by
  induction l with
  | nil => intro pr h; simp at h
  | cons x xs ih =>
      intro pr h
      simp only [List.map_cons, List.zip_cons_cons, List.mem_cons] at h
      rcases h with h | h
      · subst h; rfl
      · exact ih pr h

/-- A row returned by fetch_item with a shop filter is a table row with the
requested id and shop. -/
theorem fetch_item_some_mem (db : DB) (iid s : Nat) (item : Item)
    (h : fetch_item db iid (some s) = some item) :
    item ∈ db.items ∧ item.id = iid ∧ item.shop_id = s := by
  unfold fetch_item at h
  have hmem := List.mem_of_find?_eq_some h
  have hp := List.find?_some h
  simp only [Bool.and_eq_true, beq_iff_eq] at hp
  exact ⟨hmem, hp.1, hp.2⟩

/-- A sample item row used by concrete witnesses: id 1 in shop 1,
price 10, stock 5. -/
def itemW : Item := ⟨1, 1, "Widget", 10, 5⟩

/-- A sample store for concrete witnesses: one shop, one admin, one item. -/
def dbW : DB :=
  { shops := [⟨1, "Default Shop"⟩], users := [⟨1, "admin", "admin123", Role.admin⟩],
    items := [itemW], sales := [],
    nextShopId := 2, nextUserId := 2, nextItemId := 2, nextSaleId := 1 }

/-- Claim C1: a sale of quantity q against an item of the caller's shop with
0 < q ≤ stock succeeds with "Sale recorded successfully.", decrements only
that item's quantity by q (name, price, shop_id, id unchanged; all other
items untouched), and appends exactly one Sale row with that shop_id,
item_id, acting user id, quantity q and total = price * q. -/
theorem sell_item_records_sale (db : DB) (S uid iid : Nat) (q : Int) (item : Item)
    (hNodup : (db.items.map Item.id).Nodup)
    (hfetch : fetch_item db iid (some S) = some item)
    (hq : 0 < q) (hqn : q ≤ item.quantity) :
    (sell_item db S uid iid q).2 = ⟨true, "Sale recorded successfully."⟩ ∧
    (sell_item db S uid iid q).1.items =
      db.items.map (fun it =>
        if it.id = item.id then { item with quantity := item.quantity - q } else it) ∧
    (sell_item db S uid iid q).1.sales =
      db.sales ++ [⟨db.nextSaleId, S, item.id, uid, q, item.price * (q : Rat)⟩] ∧
    (sell_item db S uid iid q).1.shops = db.shops ∧
    (sell_item db S uid iid q).1.users = db.users := by
  obtain ⟨hmem, hid, hshop⟩ := fetch_item_some_mem db iid S item hfetch
  have h1 : ¬ q ≤ 0 := by omega
  have h2 : ¬ q > item.quantity := by omega
  unfold sell_item
  simp only [hfetch]
  rw [if_neg h1, if_neg h2]
  refine ⟨rfl, ?_, rfl, rfl, rfl⟩
  show (update_item db item.id item.name item.price (item.quantity - q)).items = _
  unfold update_item
  simp only
  apply List.map_congr_left
  intro a ha
  by_cases hcase : a.id = item.id
  · have haeq : a = item := List.inj_on_of_nodup_map hNodup ha hmem hcase
    subst haeq
    simp [hcase]
  · simp [hcase]

/-- Witness for C1: on the sample store, selling 2 units of item 1 in shop 1
as user 1 succeeds, leaves stock 3, and records one sale with total 20. -/
theorem sell_item_records_sale_witness :
    ((dbW.items.map Item.id).Nodup ∧
     fetch_item dbW 1 (some 1) = some itemW ∧
     (0 : Int) < 2 ∧ (2 : Int) ≤ itemW.quantity) ∧
    ((sell_item dbW 1 1 1 2).2 = ⟨true, "Sale recorded successfully."⟩ ∧
     (sell_item dbW 1 1 1 2).1.items =
       dbW.items.map (fun it =>
         if it.id = itemW.id then { itemW with quantity := itemW.quantity - 2 } else it) ∧
     (sell_item dbW 1 1 1 2).1.sales =
       dbW.sales ++ [⟨dbW.nextSaleId, 1, itemW.id, 1, 2, itemW.price * ((2 : Int) : Rat)⟩] ∧
     (sell_item dbW 1 1 1 2).1.shops = dbW.shops ∧
     (sell_item dbW 1 1 1 2).1.users = dbW.users) :=
  ⟨⟨by decide, by decide, by decide, by decide⟩,
   sell_item_records_sale dbW 1 1 1 2 itemW (by decide) (by decide) (by decide) (by decide)⟩

/-- Claim C2: a sale of quantity q against an item of the caller's shop with
non-negative stock n and q > n is rejected with "Not enough stock to
complete the sale." and the whole store is unchanged (so no Sale row). -/
theorem sell_item_insufficient_stock (db : DB) (S uid iid : Nat) (q : Int) (item : Item)
    (hfetch : fetch_item db iid (some S) = some item)
    (hn : 0 ≤ item.quantity) (hq : item.quantity < q) :
    sell_item db S uid iid q = (db, ⟨false, "Not enough stock to complete the sale."⟩) := by
  have h1 : ¬ q ≤ 0 := by omega
  unfold sell_item
  simp only [hfetch]
  rw [if_neg h1, if_pos hq]

/-- Witness for C2: selling 9 units of item 1 (stock 5) on the sample store
is rejected and changes nothing. -/
theorem sell_item_insufficient_stock_witness :
    (fetch_item dbW 1 (some 1) = some itemW ∧
     (0 : Int) ≤ itemW.quantity ∧ itemW.quantity < 9) ∧
    sell_item dbW 1 1 1 9 = (dbW, ⟨false, "Not enough stock to complete the sale."⟩) :=
  ⟨⟨by decide, by decide, by decide⟩,
   sell_item_insufficient_stock dbW 1 1 1 9 itemW (by decide) (by decide) (by decide)⟩

/-- Claim C3, counterexample: the quantity check is NOT the first validation
step.  On the sample store, a request with quantity 0 and an item_id that
resolves to no item of the shop is rejected with "Selected item not found.",
not with "Quantity must be at least 1." as the claim predicts. -/
theorem sell_item_qty_check_not_first :
    (sell_item dbW 1 1 99 0).2.message = "Selected item not found." ∧
    (sell_item dbW 1 1 99 0).2.message ≠ "Quantity must be at least 1." := by
  decide

/-- Claim C3 as amended: item resolution happens before quantity validation.
A sale with q ≤ 0 never changes the store and never records a Sale row; it
is rejected with "Quantity must be at least 1." when the item_id resolves in
the caller's shop, and with "Selected item not found." when it does not. -/
theorem sell_item_nonpositive_qty (db : DB) (S uid iid : Nat) (q : Int)
    (hq : q ≤ 0) :
    (sell_item db S uid iid q).1 = db ∧
    (sell_item db S uid iid q).2.ok = false ∧
    (∀ item, fetch_item db iid (some S) = some item →
      (sell_item db S uid iid q).2 = ⟨false, "Quantity must be at least 1."⟩) ∧
    (fetch_item db iid (some S) = none →
      (sell_item db S uid iid q).2 = ⟨false, "Selected item not found."⟩) := by
  cases h : fetch_item db iid (some S) with
  | none =>
      have key : sell_item db S uid iid q = (db, ⟨false, "Selected item not found."⟩) := by
        unfold sell_item
        rw [h]
      rw [key]
      refine ⟨rfl, rfl, ?_, fun _ => rfl⟩
      intro item hitem
      exact absurd hitem (by simp)
  | some item0 =>
      have key : sell_item db S uid iid q = (db, ⟨false, "Quantity must be at least 1."⟩) := by
        unfold sell_item
        simp only [h]
        rw [if_pos hq]
      rw [key]
      refine ⟨rfl, rfl, fun _ _ => rfl, ?_⟩
      intro hnone
      exact absurd hnone (by simp)

/-- Witness for C3 (amended): quantity 0 against the resolvable item 1 of the
sample store is rejected with the quantity message and no state change. -/
theorem sell_item_nonpositive_qty_witness :
    ((0 : Int) ≤ 0) ∧
    ((sell_item dbW 1 1 1 0).1 = dbW ∧
     (sell_item dbW 1 1 1 0).2.ok = false ∧
     (∀ item, fetch_item dbW 1 (some 1) = some item →
       (sell_item dbW 1 1 1 0).2 = ⟨false, "Quantity must be at least 1."⟩) ∧
     (fetch_item dbW 1 (some 1) = none →
       (sell_item dbW 1 1 1 0).2 = ⟨false, "Selected item not found."⟩)) :=
  ⟨by decide, sell_item_nonpositive_qty dbW 1 1 1 0 (by decide)⟩

/-- Claim C4: when no item of the caller's selected shop has the requested
id — even if an item with that id exists in another shop — the sale is
rejected with "Selected item not found." and the store is unchanged. -/
theorem sell_item_cross_shop_rejected (db : DB) (S uid iid : Nat) (q : Int)
    (habs : ∀ it ∈ db.items, ¬ (it.id = iid ∧ it.shop_id = S)) :
    sell_item db S uid iid q = (db, ⟨false, "Selected item not found."⟩) := by
  have hnone : fetch_item db iid (some S) = none := by
    unfold fetch_item
    rw [List.find?_eq_none]
    intro x hx
    simp only [Bool.and_eq_true, beq_iff_eq, not_and]
    intro h1 h2
    exact habs x hx ⟨h1, h2⟩
  unfold sell_item
  rw [hnone]

/-- Witness for C4: item 1 exists only in shop 1; a caller whose selected
shop is 2 asking to sell item 1 is rejected as not found with no change. -/
theorem sell_item_cross_shop_rejected_witness :
    (∀ it ∈ dbW.items, ¬ (it.id = 1 ∧ it.shop_id = 2)) ∧
    sell_item dbW 2 1 1 3 = (dbW, ⟨false, "Selected item not found."⟩) :=
  ⟨by decide, sell_item_cross_shop_rejected dbW 2 1 1 3 (by decide)⟩

/-- An item row living in shop 2, for the tenancy-violation demonstration. -/
def itemX : Item := ⟨1, 2, "Widget", 10, 5⟩

/-- A store with two shops whose only item belongs to shop 2. -/
def dbX : DB :=
  { shops := [⟨1, "Alpha"⟩, ⟨2, "Beta"⟩], users := [⟨1, "admin", "admin123", Role.admin⟩],
    items := [itemX], sales := [],
    nextShopId := 3, nextUserId := 2, nextItemId := 2, nextSaleId := 1 }

/-- Claim C5 is violated by the code: with selected shop 1, whose item table
contains nothing (the only item belongs to shop 2), the edit route still
rewrites shop 2's item — its unscoped fetch_item(item_id) lookup finds the
cross-shop row — and the delete route removes it outright. -/
theorem edit_and_delete_mutate_cross_shop_item :
    (∀ it ∈ dbX.items, it.shop_id ≠ 1) ∧
    (edit_item_post dbX (some 1) 1 "Hacked" 1 0).items = [⟨1, 2, "Hacked", 1, 0⟩] ∧
    (edit_item_post dbX (some 1) 1 "Hacked" 1 0).items ≠ dbX.items ∧
    (remove_item dbX 1).items = [] := by
  decide

/-- Every sale operation maps a store whose item quantities are all
non-negative to a store with the same property: rejected sales change
nothing, and an accepted sale leaves stock item.quantity - q ≥ 0. -/
theorem sell_item_preserves_nonneg (db : DB) (S uid iid : Nat) (q : Int)
    (h0 : ∀ it ∈ db.items, 0 ≤ it.quantity) :
    ∀ it ∈ (sell_item db S uid iid q).1.items, 0 ≤ it.quantity := by
  cases hf : fetch_item db iid (some S) with
  | none =>
      have key : (sell_item db S uid iid q).1 = db := by
        unfold sell_item
        rw [hf]
      rw [key]
      exact h0
  | some item =>
      obtain ⟨hmem, -, -⟩ := fetch_item_some_mem db iid S item hf
      by_cases h1 : q ≤ 0
      · have key : (sell_item db S uid iid q).1 = db := by
          unfold sell_item
          simp only [hf]
          rw [if_pos h1]
        rw [key]
        exact h0
      · by_cases h2 : q > item.quantity
        · have key : (sell_item db S uid iid q).1 = db := by
            unfold sell_item
            simp only [hf]
            rw [if_neg h1, if_pos h2]
          rw [key]
          exact h0
        · have key : (sell_item db S uid iid q).1.items =
              db.items.map (fun it =>
                if it.id = item.id then
                  { it with
                    name := item.name, price := item.price,
                    quantity := item.quantity - q }
                else it) := by
            unfold sell_item update_item
            simp only [hf]
            rw [if_neg h1, if_neg h2]
          rw [key]
          intro it hit
          obtain ⟨a, ha, rfl⟩ := List.mem_map.mp hit
          by_cases hc : a.id = item.id
          · have hq : 0 ≤ item.quantity := h0 item hmem
            rw [if_pos hc]
            show 0 ≤ item.quantity - q
            omega
          · simp only [if_neg hc]
            exact h0 a ha

/-- Claim C6: from any store in which every item quantity is non-negative,
any finite sequence of sale operations leaves every item quantity
non-negative: a sale that would drive a quantity negative is rejected with
no state change. -/
theorem runSales_preserves_nonneg (db : DB) (reqs : List SellRequest)
    (h0 : ∀ it ∈ db.items, 0 ≤ it.quantity) :
    ∀ it ∈ (runSales db reqs).items, 0 ≤ it.quantity := by
  induction reqs generalizing db with
  | nil => exact h0
  | cons r rs ih =>
      exact ih _
        (sell_item_preserves_nonneg db r.shop_id r.user_id r.item_id r.quantity h0)

/-- Witness for C6: the sample store survives a sequence of sales (some
rejected for overselling) with all quantities still non-negative. -/
theorem runSales_preserves_nonneg_witness :
    (∀ it ∈ dbW.items, 0 ≤ it.quantity) ∧
    (∀ it ∈ (runSales dbW [⟨1, 1, 1, 3⟩, ⟨1, 1, 1, 4⟩, ⟨1, 1, 1, 2⟩]).items,
      0 ≤ it.quantity) :=
  ⟨by decide,
   runSales_preserves_nonneg dbW [⟨1, 1, 1, 3⟩, ⟨1, 1, 1, 4⟩, ⟨1, 1, 1, 2⟩] (by decide)⟩

/-- After init_db the shop table is non-empty and an admin user exists, so
both of its guarded seed inserts are disabled on any later run. -/
theorem init_db_state (db : DB) :
    (init_db db).shops.isEmpty = false ∧
    (init_db db).users.any (fun u => u.role == Role.admin) = true := by
  unfold init_db
  by_cases h : db.shops.isEmpty
  · simp only [if_pos h]
    split
    · rename_i hany
      exact ⟨by simp, hany⟩
    · exact ⟨by simp, by simp [List.any_append]⟩
  · simp only [if_neg h]
    split
    · rename_i hany
      exact ⟨by simpa using h, hany⟩
    · exact ⟨by simpa using h, by simp [List.any_append]⟩

/-- A second bootstrap run on an already-bootstrapped store is the
identity. -/
theorem init_db_second_run_id (db : DB) :
    init_db (init_db db) = init_db db := by
  obtain ⟨hs, ha⟩ := init_db_state db
  generalize hgen : init_db db = d1 at hs ha ⊢
  unfold init_db
  simp [hs, ha]

/-- Claim C7: bootstrap is idempotent — the second run creates no shop and
no admin — and two runs from an empty store leave exactly one shop, the
default one, and exactly one admin user. -/
theorem init_db_twice_bootstrap (db : DB) :
    init_db (init_db db) = init_db db ∧
    (init_db (init_db DB.empty)).shops = [⟨1, "Default Shop"⟩] ∧
    ((init_db (init_db DB.empty)).users.filter (fun u => u.role == Role.admin)).length
      = 1 :=
  ⟨init_db_second_run_id db, by decide, by decide⟩

instance : IsTotal Item (fun a b => b.id ≤ a.id) :=
  ⟨fun a b => le_total b.id a.id⟩

instance : IsTrans Item (fun a b => b.id ≤ a.id) :=
  ⟨fun _ _ _ h1 h2 => le_trans h2 h1⟩

/-- Claim C8: with no selected shop the item list is empty; with selected
shop S it holds exactly the items whose shop_id is S — never a cross-shop
item — arranged with ids descending (each item's id bounds every later
one from above). -/
theorem fetch_items_spec (db : DB) (S : Nat) :
    fetch_items db none = [] ∧
    (∀ x, x ∈ fetch_items db (some S) ↔ (x ∈ db.items ∧ x.shop_id = S)) ∧
    (fetch_items db (some S)).Pairwise (fun a b => b.id ≤ a.id) := by
  refine ⟨rfl, ?_, ?_⟩
  · intro x
    unfold fetch_items
    rw [List.mem_insertionSort]
    simp [List.mem_filter]
  · unfold fetch_items
    exact List.sorted_insertionSort _ _

/-- Claim C9: update_item fully replaces name, price and quantity of the
rows with the given id, keeps their id and shop_id, leaves every other
item row untouched (positionally), and leaves the sales, shops and users
tables and the table length unchanged. -/
theorem update_item_frame (db : DB) (I : Nat) (nm : String) (p : Rat) (qy : Int)
    (pr : Item × Item)
    (hpr : pr ∈ db.items.zip (update_item db I nm p qy).items) :
    (update_item db I nm p qy).sales = db.sales ∧
    (update_item db I nm p qy).shops = db.shops ∧
    (update_item db I nm p qy).users = db.users ∧
    (update_item db I nm p qy).items.length = db.items.length ∧
    (pr.1.id = I → pr.2 = { pr.1 with name := nm, price := p, quantity := qy }) ∧
    (pr.1.id ≠ I → pr.2 = pr.1) := by
  have hpr2 : pr ∈ db.items.zip (db.items.map (fun it =>
      if it.id = I then { it with name := nm, price := p, quantity := qy } else it)) := hpr
  have hzip := zip_map_self
    (fun it => if it.id = I then { it with name := nm, price := p, quantity := qy } else it)
    db.items pr hpr2
  refine ⟨rfl, rfl, rfl, by simp [update_item], ?_, ?_⟩
  · intro h
    rw [hzip]
    simp only [if_pos h]
  · intro h
    rw [hzip]
    simp only [if_neg h]

/-- Witness for C9: updating item 1 of the sample store replaces its
mutable fields, keeps shop_id 1, and leaves all other tables unchanged. -/
theorem update_item_frame_witness :
    ((itemW, ({ itemW with name := "Gadget", price := 3, quantity := 7 } : Item)) ∈
      dbW.items.zip (update_item dbW 1 "Gadget" 3 7).items) ∧
    ((update_item dbW 1 "Gadget" 3 7).sales = dbW.sales ∧
     (update_item dbW 1 "Gadget" 3 7).shops = dbW.shops ∧
     (update_item dbW 1 "Gadget" 3 7).users = dbW.users ∧
     (update_item dbW 1 "Gadget" 3 7).items.length = dbW.items.length ∧
     (itemW.id = 1 →
       ({ itemW with name := "Gadget", price := 3, quantity := 7 } : Item) =
         { itemW with name := "Gadget", price := 3, quantity := 7 }) ∧
     (itemW.id ≠ 1 →
       ({ itemW with name := "Gadget", price := 3, quantity := 7 } : Item) = itemW)) :=
  ⟨by decide,
   update_item_frame dbW 1 "Gadget" 3 7
     (itemW, { itemW with name := "Gadget", price := 3, quantity := 7 }) (by decide)⟩

/-- Claim C10: submitting a shop whose stripped, non-empty name duplicates
an existing shop's name leaves the whole store unchanged — the INSERT OR
IGNORE is a silent no-op, every existing shop keeps its id, and the route
reports nothing to the caller. -/
theorem shops_post_duplicate_noop (db : DB) (rawName : String)
    (hne : strip rawName ≠ "")
    (hdup : ∃ s ∈ db.shops, s.name = strip rawName) :
    shops_post db rawName = db := by
  obtain ⟨s, hs, hname⟩ := hdup
  have hany : db.shops.any (fun t => t.name == strip rawName) = true := by
    rw [List.any_eq_true]
    exact ⟨s, hs, by simp [hname]⟩
  show (if strip rawName ≠ "" then
      if db.shops.any (fun t => t.name == strip rawName) then db
      else
        { db with
          shops := db.shops ++ [⟨db.nextShopId, strip rawName⟩],
          nextShopId := db.nextShopId + 1 }
    else db) = db
  rw [if_pos hne, if_pos hany]

/-- Witness for C10: posting "  Default Shop " against the sample store,
which already has a shop of that (stripped) name, changes nothing. -/
theorem shops_post_duplicate_noop_witness :
    (strip "  Default Shop " ≠ "" ∧
     ∃ s ∈ dbW.shops, s.name = strip "  Default Shop ") ∧
    shops_post dbW "  Default Shop " = dbW :=
  ⟨⟨by decide, by decide⟩,
   shops_post_duplicate_noop dbW "  Default Shop " (by decide) (by decide)⟩

end ShopApp
